import Mathlib

/-!
Shallow embedding of `src/key_automaton.py` (API Key Automaton, a FastAPI
service over three module-level in-memory lists: `api_keys_db`,
`allocations_db`, `audit_log_db`).

Modelling conventions:
* Python `datetime` values are modelled as `Nat` timestamps; every handler
  that calls `datetime.now()` receives the current instant as an explicit
  `now : Nat` argument.
* `ADMIN_KEYS` (a set built from the `ADMIN_API_KEY` environment variable,
  line 33) is modelled as the `adminKeys` field of a `Config`; the FastAPI
  header dependency `require_admin` (lines 35-41) is `authOk`, receiving the
  request header as `Option String` (`none` = missing header, since the
  header is declared with `auto_error=False`).
* `raise HTTPException` is modelled by returning `Except.error` together with
  the global state as it stands at the raise point, so that partial mutations
  before a raise (there are none in this source) would be visible.
* Python dict payloads (`scope`, `system_request` body) are modelled as an
  association list and a pre-serialized string respectively.
-/

/-- Errors raised by the handlers: 401 from `require_admin`, 404 from the
key lookups (lines 37-40, 159, 171, 209). -/
inductive ApiError where
  | unauthorized
  | notFound
deriving DecidableEq, Repr

/-- Scope payload: a Python dict of permission name to value (line 55). -/
abbrev Scope := List (String × String)

/-- Request body of POST /keys (lines 44-49). -/
structure KeyCreate where
  system_name : String
  system_type : String
  env : String
  name : String
  key_ref : String
deriving DecidableEq, Repr

/-- Request body of POST /allocations (lines 51-55). -/
structure AllocationCreate where
  key_id : String
  consumer_type : String
  consumer_id : String
  scope : Scope
deriving DecidableEq, Repr

/-- One record of `api_keys_db` (lines 69-103, 128-138). -/
structure Key where
  id : String
  name : String
  system_name : String
  system_type : String
  env : String
  status : String
  last_used_at : Option Nat
  last_rotated_at : Option Nat
  allocated_to : List String
deriving DecidableEq, Repr

/-- One record of `allocations_db` (lines 177-184). -/
structure Allocation where
  id : String
  key_id : String
  consumer_type : String
  consumer_id : String
  scope : Scope
  created_at : Nat
deriving DecidableEq, Repr

/-- One record of `audit_log_db` (lines 141-146, 187-192, 213-218, 228-232).
The `system_request` entries carry no `key_id`, hence the `Option`. -/
structure AuditEntry where
  timestamp : Nat
  action : String
  key_id : Option String
  details : String
deriving DecidableEq, Repr

/-- The three module-level mutable lists (lines 69, 105, 106). -/
structure ServerState where
  api_keys_db : List Key
  allocations_db : List Allocation
  audit_log_db : List AuditEntry
deriving DecidableEq, Repr

/-- Deployment configuration: the `ADMIN_KEYS` set of line 33. -/
structure Config where
  adminKeys : List String
deriving DecidableEq, Repr

/-- The `require_admin` dependency (lines 35-41): the request's
`x-admin-api-key` header must be a member of `ADMIN_KEYS`; a missing header
(`none`) is rejected. -/
def authOk (cfg : Config) (apiKey : Option String) : Bool :=
  match apiKey with
  | some k => cfg.adminKeys.contains k
  | none => false

/-- Python's `f"{n:03d}"`: the decimal representation of `n` left-padded
with zeros to width 3. -/
def pad3 (s : String) : String :=
  String.mk (List.replicate (3 - s.length) '0') ++ s

/-- The id format of lines 127 and 178: `f"key-{n:03d}"` / `f"alloc-{n:03d}"`. -/
def formatNumId (tag : String) (n : Nat) : String :=
  tag ++ pad3 (Nat.repr n)

/-- The first-match linear scan of lines 156-158, 164-168, 202-206. -/
def findKey (kid : String) (keys : List Key) : Option Key :=
  keys.find? (fun k => k.id == kid)

/-- In-place mutation of the first list element with the given id, as Python
performs on the aliased dict obtained from the `for`/`break` scan. -/
def updateFirstKey (f : Key → Key) (kid : String) : List Key → List Key
  | [] => []
  | k :: ks => if k.id == kid then f k :: ks else k :: updateFirstKey f kid ks

/-- Handler of POST /keys (lines 125-148). -/
def create_key (cfg : Config) (apiKey : Option String) (payload : KeyCreate)
    (now : Nat) (s : ServerState) : ServerState × Except ApiError String :=
  if authOk cfg apiKey then
    let key_id := formatNumId "key-" (s.api_keys_db.length + 1)
    let new_key : Key :=
      { id := key_id, name := payload.name, system_name := payload.system_name,
        system_type := payload.system_type, env := payload.env,
        status := "active", last_used_at := none, last_rotated_at := some now,
        allocated_to := [] }
    let entry : AuditEntry :=
      { timestamp := now, action := "create_key", key_id := some key_id,
        details := "Created key \x27" ++ payload.name ++ "\x27" }
    ({ s with api_keys_db := s.api_keys_db ++ [new_key],
              audit_log_db := s.audit_log_db ++ [entry] }, .ok key_id)
  else (s, .error .unauthorized)

/-- Handler of GET /keys (lines 150-152): returns the whole list, no filters. -/
def list_keys (cfg : Config) (apiKey : Option String) (s : ServerState) :
    ServerState × Except ApiError (List Key) :=
  if authOk cfg apiKey then (s, .ok s.api_keys_db)
  else (s, .error .unauthorized)

/-- Handler of GET /keys/key_id (lines 154-159). -/
def get_key (cfg : Config) (apiKey : Option String) (kid : String)
    (s : ServerState) : ServerState × Except ApiError Key :=
  if authOk cfg apiKey then
    match findKey kid s.api_keys_db with
    | some k => (s, .ok k)
    | none => (s, .error .notFound)
  else (s, .error .unauthorized)

/-- Handler of POST /allocations (lines 161-194). No status check is made on
the found key; the consumer id is appended to the key's `allocated_to` only
when absent (line 174), while a fresh Allocation record is appended
unconditionally (line 185). -/
def allocate_key (cfg : Config) (apiKey : Option String)
    (payload : AllocationCreate) (now : Nat) (s : ServerState) :
    ServerState × Except ApiError String :=
  if authOk cfg apiKey then
    match findKey payload.key_id s.api_keys_db with
    | none => (s, .error .notFound)
    | some _ =>
      let keys := updateFirstKey
        (fun k =>
          if payload.consumer_id ∈ k.allocated_to then k
          else { k with allocated_to := k.allocated_to ++ [payload.consumer_id] })
        payload.key_id s.api_keys_db
      let alloc : Allocation :=
        { id := formatNumId "alloc-" (s.allocations_db.length + 1),
          key_id := payload.key_id, consumer_type := payload.consumer_type,
          consumer_id := payload.consumer_id, scope := payload.scope,
          created_at := now }
      let entry : AuditEntry :=
        { timestamp := now, action := "allocate_key",
          key_id := some payload.key_id,
          details := "Allocated to " ++ payload.consumer_id }
      ({ s with api_keys_db := keys,
                allocations_db := s.allocations_db ++ [alloc],
                audit_log_db := s.audit_log_db ++ [entry] }, .ok alloc.id)
  else (s, .error .unauthorized)

/-- Handler of GET /allocations (lines 196-198). -/
def list_allocations (cfg : Config) (apiKey : Option String)
    (s : ServerState) : ServerState × Except ApiError (List Allocation) :=
  if authOk cfg apiKey then (s, .ok s.allocations_db)
  else (s, .error .unauthorized)

/-- Handler of POST /keys/key_id/rotate (lines 200-220): sets
`last_rotated_at` on the first key with the given id and appends one audit
entry; no other field is touched. -/
def rotate_key (cfg : Config) (apiKey : Option String) (kid : String)
    (now : Nat) (s : ServerState) : ServerState × Except ApiError String :=
  if authOk cfg apiKey then
    match findKey kid s.api_keys_db with
    | none => (s, .error .notFound)
    | some k =>
      let entry : AuditEntry :=
        { timestamp := now, action := "rotate_key", key_id := some kid,
          details := "Rotated key \x27" ++ k.name ++ "\x27" }
      ({ s with
          api_keys_db := updateFirstKey
            (fun k => { k with last_rotated_at := some now }) kid s.api_keys_db,
          audit_log_db := s.audit_log_db ++ [entry] }, .ok kid)
  else (s, .error .unauthorized)

/-- Handler of GET /audit-log (lines 222-224): Python `audit_log_db[-100:]`,
the suffix of the last (at most) 100 entries. -/
def get_audit_log (cfg : Config) (apiKey : Option String) (s : ServerState) :
    ServerState × Except ApiError (List AuditEntry) :=
  if authOk cfg apiKey then
    (s, .ok (s.audit_log_db.drop (s.audit_log_db.length - 100)))
  else (s, .error .unauthorized)

/-- Handler of POST /system-requests (lines 226-233); `details` is the
`json.dumps(payload)` string. -/
def system_request (cfg : Config) (apiKey : Option String) (details : String)
    (now : Nat) (s : ServerState) : ServerState × Except ApiError Unit :=
  if authOk cfg apiKey then
    let entry : AuditEntry :=
      { timestamp := now, action := "system_request", key_id := none,
        details := details }
    ({ s with audit_log_db := s.audit_log_db ++ [entry] }, .ok ())
  else (s, .error .unauthorized)

/-- One admin-gated request (the routes of lines 125-233; the ungated GET /
and GET /health touch no state). Each carries its own header value and,
where the handler reads the clock, the current instant. -/
inductive Op where
  | createOp (apiKey : Option String) (payload : KeyCreate) (now : Nat)
  | listOp (apiKey : Option String)
  | getOp (apiKey : Option String) (kid : String)
  | allocateOp (apiKey : Option String) (payload : AllocationCreate) (now : Nat)
  | listAllocsOp (apiKey : Option String)
  | rotateOp (apiKey : Option String) (kid : String) (now : Nat)
  | auditOp (apiKey : Option String)
  | systemReqOp (apiKey : Option String) (details : String) (now : Nat)
deriving DecidableEq, Repr

/-- Dispatch one request, keeping the new state and whether it failed. -/
def stepE (cfg : Config) (s : ServerState) : Op → ServerState × Except ApiError Unit
  | .createOp k p now => let r := create_key cfg k p now s; (r.1, r.2.map fun _ => ())
  | .listOp k => let r := list_keys cfg k s; (r.1, r.2.map fun _ => ())
  | .getOp k kid => let r := get_key cfg k kid s; (r.1, r.2.map fun _ => ())
  | .allocateOp k p now => let r := allocate_key cfg k p now s; (r.1, r.2.map fun _ => ())
  | .listAllocsOp k => let r := list_allocations cfg k s; (r.1, r.2.map fun _ => ())
  | .rotateOp k kid now => let r := rotate_key cfg k kid now s; (r.1, r.2.map fun _ => ())
  | .auditOp k => let r := get_audit_log cfg k s; (r.1, r.2.map fun _ => ())
  | .systemReqOp k d now => let r := system_request cfg k d now s; (r.1, r.2.map fun _ => ())

/-- State after one request. -/
def step (cfg : Config) (s : ServerState) (op : Op) : ServerState :=
  (stepE cfg s op).1

/-- The module-level initial contents of the three lists (lines 69-106).
Timestamps encode the source's datetime literals as YYYYMMDDhhmmss. -/
def initState : ServerState :=
  { api_keys_db :=
      [ { id := "key-001", name := "Production Database",
          system_name := "PostgreSQL", system_type := "db", env := "prod",
          status := "active", last_used_at := some 20240207120000,
          last_rotated_at := some 20240201000000,
          allocated_to := ["Server-01", "Server-02"] },
        { id := "key-002", name := "Payment Gateway", system_name := "Stripe",
          system_type := "payments", env := "prod", status := "active",
          last_used_at := some 20240206183000,
          last_rotated_at := some 20240115000000,
          allocated_to := ["API-Gateway"] },
        { id := "key-003", name := "Cloud Storage", system_name := "AWS S3",
          system_type := "storage", env := "prod", status := "active",
          last_used_at := none, last_rotated_at := some 20240205000000,
          allocated_to := [] } ],
    allocations_db := [],
    audit_log_db := [] }

/-- The server state reached from the initial module state by a request
sequence. -/
def run (cfg : Config) (ops : List Op) : ServerState :=
  ops.foldl (step cfg) initState

/-! ### Injectivity of the `f"key-{n:03d}"` id format -/

/-- Numeric value of a decimal digit character. -/
def digitVal (c : Char) : Nat := c.toNat - 48

/-- Read a digit string back as a number (most significant digit first). -/
def decodeDigits (l : List Char) : Nat :=
  l.foldl (fun a c => 10 * a + digitVal c) 0

/-- The decimal digit characters of `n`, most significant first; shown below
to agree with `Nat.repr`. -/
def natDecimal (n : Nat) : List Char :=
  if h : n < 10 then [Nat.digitChar n]
  else natDecimal (n / 10) ++ [Nat.digitChar (n % 10)]
decreasing_by exact Nat.div_lt_self (by omega) (by omega)

/-! ### Observations and auxiliary definitions used by the claims -/

/-- The ids of the stored keys, in storage order. -/
def keyIds (s : ServerState) : List String := s.api_keys_db.map Key.id

/-- The id sequence the creation scheme of line 127 produces for the first
`n` keys. -/
def idSeq (n : Nat) : List String :=
  (List.range n).map (fun i => formatNumId "key-" (i + 1))

/-- A key with its rotation timestamp erased: the projection of a credential
onto everything except `last_rotated_at`. -/
def stripRotatedAt (k : Key) : Key := { k with last_rotated_at := none }

/-- Field-by-field agreement of two keys on everything except
`last_rotated_at`. -/
def sameExceptRotatedAt (a b : Key) : Prop :=
  a.id = b.id ∧ a.name = b.name ∧ a.system_name = b.system_name ∧
    a.system_type = b.system_type ∧ a.env = b.env ∧ a.status = b.status ∧
    a.last_used_at = b.last_used_at ∧ a.allocated_to = b.allocated_to

/-- Refinement comparison only, following the words of the spec (section
4.1): `list(filter)` returns the credentials matching the optional filters
(status, environment, systemType), in creation order. The source's
`list_keys` handler takes no filter arguments; this definition exists solely
to be compared against it. -/
def list_keys_filtered (status_f env_f stype_f : Option String)
    (s : ServerState) : List Key :=
  s.api_keys_db.filter (fun k =>
    (match status_f with | some x => k.status == x | none => true) &&
    (match env_f with | some x => k.env == x | none => true) &&
    (match stype_f with | some x => k.system_type == x | none => true))

/-- The allocation record appended by `allocate_key` (lines 177-184). -/
def allocRecord (payload : AllocationCreate) (now : Nat) (s : ServerState) :
    Allocation :=
  { id := formatNumId "alloc-" (s.allocations_db.length + 1),
    key_id := payload.key_id, consumer_type := payload.consumer_type,
    consumer_id := payload.consumer_id, scope := payload.scope,
    created_at := now }

/-- The `allocated_to` update of line 174: append the consumer id only when
it is not already listed. -/
def allocConsumerUpd (payload : AllocationCreate) (k : Key) : Key :=
  if payload.consumer_id ∈ k.allocated_to then k
  else { k with allocated_to := k.allocated_to ++ [payload.consumer_id] }

/-- The credential record appended by `create_key` (lines 128-138). -/
def newKeyRecord (payload : KeyCreate) (now : Nat) (s : ServerState) : Key :=
  { id := formatNumId "key-" (s.api_keys_db.length + 1), name := payload.name,
    system_name := payload.system_name, system_type := payload.system_type,
    env := payload.env, status := "active", last_used_at := none,
    last_rotated_at := some now, allocated_to := [] }

/-- The api key of a request, as checked by `require_admin`. -/
def opApiKey : Op → Option String
  | .createOp k _ _ => k
  | .listOp k => k
  | .getOp k _ => k
  | .allocateOp k _ _ => k
  | .listAllocsOp k => k
  | .rotateOp k _ _ => k
  | .auditOp k => k
  | .systemReqOp k _ _ => k

/-- The default deployment of line 33: `ADMIN_API_KEY` unset. -/
def demoConfig : Config := { adminKeys := ["demo-admin-key-change-me"] }

/-- The matching admin header for `demoConfig`. -/
def demoKey : Option String := some "demo-admin-key-change-me"

/-- A one-key state whose credential has status "revoked", used to probe the
status handling of `allocate_key`. -/
def revokedState : ServerState :=
  { api_keys_db :=
      [ { id := "key-001", name := "Dead Key", system_name := "PostgreSQL",
          system_type := "db", env := "prod", status := "revoked",
          last_used_at := none, last_rotated_at := none,
          allocated_to := [] } ],
    allocations_db := [],
    audit_log_db := [] }

/-- The positional id invariant: the stored ids are exactly the creation
scheme's output for the current list length. -/
def idsInv (s : ServerState) : Prop := keyIds s = idSeq s.api_keys_db.length


/-! ### Theorems about the id format -/

theorem digitVal_digitChar (d : Nat) (h : d < 10) :
    digitVal (Nat.digitChar d) = d := by
  interval_cases d <;> decide

theorem foldl_replicate_zero (k : Nat) :
    List.foldl (fun a c => 10 * a + digitVal c) 0 (List.replicate k '0') = 0 := by
  induction k with
  | zero => rfl
  | succ k ih =>
    have h0 : (10 * 0 + digitVal '0') = 0 := by decide
    simpa [List.replicate_succ, h0] using ih

theorem decode_replicate_zero (k : Nat) (l : List Char) :
    decodeDigits (List.replicate k '0' ++ l) = decodeDigits l := by
  unfold decodeDigits
  rw [List.foldl_append, foldl_replicate_zero]

theorem decode_natDecimal (n : Nat) : decodeDigits (natDecimal n) = n := by
  induction n using Nat.strong_induction_on with
  | _ n ih =>
    rw [natDecimal]
    by_cases h : n < 10
    · rw [dif_pos h]
      simp [decodeDigits, digitVal_digitChar n h]
    · rw [dif_neg h]
      have hlt : n / 10 < n := Nat.div_lt_self (by omega) (by omega)
      have hrec := ih (n / 10) hlt
      unfold decodeDigits at hrec ⊢
      rw [List.foldl_append, hrec]
      simp only [List.foldl_cons, List.foldl_nil]
      rw [digitVal_digitChar (n % 10) (Nat.mod_lt n (by omega))]
      omega

theorem natDecimal_inj {m n : Nat} (h : natDecimal m = natDecimal n) : m = n := by
  have hd := congrArg decodeDigits h
  rwa [decode_natDecimal, decode_natDecimal] at hd

theorem toDigitsCore_eq_natDecimal (fuel n : Nat) (ds : List Char)
    (h : n < fuel) : Nat.toDigitsCore 10 fuel n ds = natDecimal n ++ ds := by
  induction fuel generalizing n ds with
  | zero => omega
  | succ fuel ih =>
    show (if n / 10 = 0 then Nat.digitChar (n % 10) :: ds
          else Nat.toDigitsCore 10 fuel (n / 10) (Nat.digitChar (n % 10) :: ds))
        = natDecimal n ++ ds
    by_cases h10 : n / 10 = 0
    · have hn : n < 10 := by omega
      rw [if_pos h10, natDecimal, dif_pos hn, Nat.mod_eq_of_lt hn]
      rfl
    · have hn : ¬ n < 10 := by omega
      have hfuel : n / 10 < fuel := by
        have := Nat.div_lt_self (n := n) (by omega) (by omega : 1 < 10)
        omega
      rw [if_neg h10, natDecimal, dif_neg hn, ih (n / 10) _ hfuel,
        List.append_assoc]
      rfl

theorem repr_eq_natDecimal (n : Nat) : Nat.repr n = String.mk (natDecimal n) := by
  show (Nat.toDigitsCore 10 (n + 1) n []).asString = String.mk (natDecimal n)
  rw [toDigitsCore_eq_natDecimal (n + 1) n [] (by omega), List.append_nil]
  rfl

theorem formatNumId_inj (tag : String) {m n : Nat}
    (h : formatNumId tag m = formatNumId tag n) : m = n := by
  unfold formatNumId pad3 at h
  rw [repr_eq_natDecimal, repr_eq_natDecimal] at h
  have hd := congrArg String.data h
  simp only [String.data_append] at hd
  have hd2 := List.append_cancel_left hd
  have hm := congrArg decodeDigits hd2
  have hlen : ∀ k : Nat, (String.mk (natDecimal k)).length = (natDecimal k).length :=
    fun _ => rfl
  simp only [String.data_append, hlen] at hm
  rw [decode_replicate_zero, decode_replicate_zero,
    decode_natDecimal, decode_natDecimal] at hm
  exact hm

theorem formatNumId_succ_injective (tag : String) :
    Function.Injective (fun i => formatNumId tag (i + 1)) := by
  intro a b hab
  have := formatNumId_inj tag hab
  omega

/-! ### Helper lemmas -/

theorem map_updateFirstKey {α : Type} (g : Key → α) (f : Key → Key)
    (kid : String) (hg : ∀ k, g (f k) = g k) (l : List Key) :
    (updateFirstKey f kid l).map g = l.map g := by
  induction l with
  | nil => rfl
  | cons a as ih =>
    unfold updateFirstKey
    by_cases h : (a.id == kid) = true
    · rw [if_pos h]
      simp [hg]
    · rw [if_neg h]
      simp [ih]

theorem updateFirstKey_cons_pos (f : Key → Key) (kid : String) (a : Key)
    (as : List Key) (h : (a.id == kid) = true) :
    updateFirstKey f kid (a :: as) = f a :: as := by
  simp only [updateFirstKey, if_pos h]

theorem updateFirstKey_cons_neg (f : Key → Key) (kid : String) (a : Key)
    (as : List Key) (h : ¬ (a.id == kid) = true) :
    updateFirstKey f kid (a :: as) = a :: updateFirstKey f kid as := by
  simp only [updateFirstKey, if_neg h]

theorem length_updateFirstKey (f : Key → Key) (kid : String) (l : List Key) :
    (updateFirstKey f kid l).length = l.length := by
  induction l with
  | nil => rfl
  | cons a as ih =>
    by_cases h : (a.id == kid) = true
    · rw [updateFirstKey_cons_pos f kid a as h]
      rfl
    · rw [updateFirstKey_cons_neg f kid a as h]
      simp [ih]

theorem get?_updateFirstKey (f : Key → Key) (kid : String) (l : List Key)
    (i : Nat) :
    (updateFirstKey f kid l).get? i = l.get? i ∨
      (updateFirstKey f kid l).get? i = (l.get? i).map f := by
  induction l generalizing i with
  | nil => left; rfl
  | cons a as ih =>
    by_cases h : (a.id == kid) = true
    · rw [updateFirstKey_cons_pos f kid a as h]
      cases i with
      | zero => right; rfl
      | succ j => left; rfl
    · rw [updateFirstKey_cons_neg f kid a as h]
      cases i with
      | zero => left; rfl
      | succ j => simpa using ih j

theorem updateFirstKey_eq_of_fix (f : Key → Key) (kid : String) (l : List Key)
    (k : Key) (hfind : findKey kid l = some k) (hfk : f k = k) :
    updateFirstKey f kid l = l := by
  induction l with
  | nil => simp [findKey] at hfind
  | cons a as ih =>
    unfold findKey at hfind ih
    by_cases h : (a.id == kid) = true
    · rw [updateFirstKey_cons_pos f kid a as h]
      have ha : a = k := by
        have := List.find?_cons_of_pos (p := fun k => k.id == kid) as h
        rw [this] at hfind
        simpa using hfind
      rw [ha, hfk]
    · rw [updateFirstKey_cons_neg f kid a as h]
      have := List.find?_cons_of_neg (p := fun k => k.id == kid) as
        (by simpa using h)
      rw [this] at hfind
      rw [ih hfind]

theorem except_map_error {α β : Type} (f : α → β) (x : Except ApiError α)
    (e : ApiError) (h : x.map f = Except.error e) : x = Except.error e := by
  cases x with
  | ok a => simp [Except.map] at h
  | error e2 =>
    simp [Except.map] at h
    rw [h]

theorem create_key_error_state (cfg : Config) (apiKey : Option String)
    (p : KeyCreate) (now : Nat) (s : ServerState) (e : ApiError)
    (h : (create_key cfg apiKey p now s).2 = Except.error e) :
    (create_key cfg apiKey p now s).1 = s := by
  unfold create_key at h ⊢
  by_cases ha : authOk cfg apiKey = true
  · rw [if_pos ha] at h
    simp at h
  · rw [if_neg ha]

theorem list_keys_error_state (cfg : Config) (apiKey : Option String)
    (s : ServerState) (e : ApiError)
    (h : (list_keys cfg apiKey s).2 = Except.error e) :
    (list_keys cfg apiKey s).1 = s := by
  unfold list_keys at h ⊢
  by_cases ha : authOk cfg apiKey = true
  · rw [if_pos ha]
  · rw [if_neg ha]

theorem get_key_error_state (cfg : Config) (apiKey : Option String)
    (kid : String) (s : ServerState) (e : ApiError)
    (h : (get_key cfg apiKey kid s).2 = Except.error e) :
    (get_key cfg apiKey kid s).1 = s := by
  unfold get_key at h ⊢
  by_cases ha : authOk cfg apiKey = true
  · rw [if_pos ha]
    cases hf : findKey kid s.api_keys_db with
    | some k => rfl
    | none => rfl
  · rw [if_neg ha]

theorem allocate_key_error_state (cfg : Config) (apiKey : Option String)
    (p : AllocationCreate) (now : Nat) (s : ServerState) (e : ApiError)
    (h : (allocate_key cfg apiKey p now s).2 = Except.error e) :
    (allocate_key cfg apiKey p now s).1 = s := by
  unfold allocate_key at h ⊢
  by_cases ha : authOk cfg apiKey = true
  · rw [if_pos ha] at h ⊢
    cases hf : findKey p.key_id s.api_keys_db with
    | some k =>
      rw [hf] at h
      simp at h
    | none =>
      rfl
  · rw [if_neg ha]

theorem list_allocations_error_state (cfg : Config) (apiKey : Option String)
    (s : ServerState) (e : ApiError)
    (h : (list_allocations cfg apiKey s).2 = Except.error e) :
    (list_allocations cfg apiKey s).1 = s := by
  unfold list_allocations at h ⊢
  by_cases ha : authOk cfg apiKey = true
  · rw [if_pos ha]
  · rw [if_neg ha]

theorem rotate_key_error_state (cfg : Config) (apiKey : Option String)
    (kid : String) (now : Nat) (s : ServerState) (e : ApiError)
    (h : (rotate_key cfg apiKey kid now s).2 = Except.error e) :
    (rotate_key cfg apiKey kid now s).1 = s := by
  unfold rotate_key at h ⊢
  by_cases ha : authOk cfg apiKey = true
  · rw [if_pos ha] at h ⊢
    cases hf : findKey kid s.api_keys_db with
    | some k =>
      rw [hf] at h
      simp at h
    | none =>
      rfl
  · rw [if_neg ha]

theorem get_audit_log_error_state (cfg : Config) (apiKey : Option String)
    (s : ServerState) (e : ApiError)
    (h : (get_audit_log cfg apiKey s).2 = Except.error e) :
    (get_audit_log cfg apiKey s).1 = s := by
  unfold get_audit_log at h ⊢
  by_cases ha : authOk cfg apiKey = true
  · rw [if_pos ha]
  · rw [if_neg ha]

theorem system_request_error_state (cfg : Config) (apiKey : Option String)
    (d : String) (now : Nat) (s : ServerState) (e : ApiError)
    (h : (system_request cfg apiKey d now s).2 = Except.error e) :
    (system_request cfg apiKey d now s).1 = s := by
  unfold system_request at h ⊢
  by_cases ha : authOk cfg apiKey = true
  · rw [if_pos ha] at h
    simp at h
  · rw [if_neg ha]

theorem stepE_error_state (cfg : Config) (s : ServerState) (op : Op)
    (e : ApiError) (h : (stepE cfg s op).2 = Except.error e) :
    step cfg s op = s := by
  cases op with
  | createOp k p now => exact create_key_error_state cfg k p now s e (except_map_error _ _ _ h)
  | listOp k => exact list_keys_error_state cfg k s e (except_map_error _ _ _ h)
  | getOp k kid => exact get_key_error_state cfg k kid s e (except_map_error _ _ _ h)
  | allocateOp k p now => exact allocate_key_error_state cfg k p now s e (except_map_error _ _ _ h)
  | listAllocsOp k => exact list_allocations_error_state cfg k s e (except_map_error _ _ _ h)
  | rotateOp k kid now => exact rotate_key_error_state cfg k kid now s e (except_map_error _ _ _ h)
  | auditOp k => exact get_audit_log_error_state cfg k s e (except_map_error _ _ _ h)
  | systemReqOp k d now => exact system_request_error_state cfg k d now s e (except_map_error _ _ _ h)

theorem create_key_unauthorized (cfg : Config) (k : Option String)
    (p : KeyCreate) (now : Nat) (s : ServerState)
    (ha : authOk cfg k = false) :
    create_key cfg k p now s = (s, Except.error ApiError.unauthorized) := by
  unfold create_key
  rw [if_neg (by simp [ha])]

theorem list_keys_unauthorized (cfg : Config) (k : Option String)
    (s : ServerState) (ha : authOk cfg k = false) :
    list_keys cfg k s = (s, Except.error ApiError.unauthorized) := by
  unfold list_keys
  rw [if_neg (by simp [ha])]

theorem get_key_unauthorized (cfg : Config) (k : Option String) (kid : String)
    (s : ServerState) (ha : authOk cfg k = false) :
    get_key cfg k kid s = (s, Except.error ApiError.unauthorized) := by
  unfold get_key
  rw [if_neg (by simp [ha])]

theorem allocate_key_unauthorized (cfg : Config) (k : Option String)
    (p : AllocationCreate) (now : Nat) (s : ServerState)
    (ha : authOk cfg k = false) :
    allocate_key cfg k p now s = (s, Except.error ApiError.unauthorized) := by
  unfold allocate_key
  rw [if_neg (by simp [ha])]

theorem list_allocations_unauthorized (cfg : Config) (k : Option String)
    (s : ServerState) (ha : authOk cfg k = false) :
    list_allocations cfg k s = (s, Except.error ApiError.unauthorized) := by
  unfold list_allocations
  rw [if_neg (by simp [ha])]

theorem rotate_key_unauthorized (cfg : Config) (k : Option String)
    (kid : String) (now : Nat) (s : ServerState)
    (ha : authOk cfg k = false) :
    rotate_key cfg k kid now s = (s, Except.error ApiError.unauthorized) := by
  unfold rotate_key
  rw [if_neg (by simp [ha])]

theorem get_audit_log_unauthorized (cfg : Config) (k : Option String)
    (s : ServerState) (ha : authOk cfg k = false) :
    get_audit_log cfg k s = (s, Except.error ApiError.unauthorized) := by
  unfold get_audit_log
  rw [if_neg (by simp [ha])]

theorem system_request_unauthorized (cfg : Config) (k : Option String)
    (d : String) (now : Nat) (s : ServerState)
    (ha : authOk cfg k = false) :
    system_request cfg k d now s = (s, Except.error ApiError.unauthorized) := by
  unfold system_request
  rw [if_neg (by simp [ha])]

theorem stepE_unauthorized (cfg : Config) (s : ServerState) (op : Op)
    (ha : authOk cfg (opApiKey op) = false) :
    stepE cfg s op = (s, Except.error ApiError.unauthorized) := by
  cases op with
  | createOp k p now =>
    show ((create_key cfg k p now s).1, (create_key cfg k p now s).2.map fun _ => ()) = _
    rw [create_key_unauthorized cfg k p now s ha]
    rfl
  | listOp k =>
    show ((list_keys cfg k s).1, (list_keys cfg k s).2.map fun _ => ()) = _
    rw [list_keys_unauthorized cfg k s ha]
    rfl
  | getOp k kid =>
    show ((get_key cfg k kid s).1, (get_key cfg k kid s).2.map fun _ => ()) = _
    rw [get_key_unauthorized cfg k kid s ha]
    rfl
  | allocateOp k p now =>
    show ((allocate_key cfg k p now s).1, (allocate_key cfg k p now s).2.map fun _ => ()) = _
    rw [allocate_key_unauthorized cfg k p now s ha]
    rfl
  | listAllocsOp k =>
    show ((list_allocations cfg k s).1, (list_allocations cfg k s).2.map fun _ => ()) = _
    rw [list_allocations_unauthorized cfg k s ha]
    rfl
  | rotateOp k kid now =>
    show ((rotate_key cfg k kid now s).1, (rotate_key cfg k kid now s).2.map fun _ => ()) = _
    rw [rotate_key_unauthorized cfg k kid now s ha]
    rfl
  | auditOp k =>
    show ((get_audit_log cfg k s).1, (get_audit_log cfg k s).2.map fun _ => ()) = _
    rw [get_audit_log_unauthorized cfg k s ha]
    rfl
  | systemReqOp k d now =>
    show ((system_request cfg k d now s).1, (system_request cfg k d now s).2.map fun _ => ()) = _
    rw [system_request_unauthorized cfg k d now s ha]
    rfl

theorem create_key_success (cfg : Config) (k : Option String) (p : KeyCreate)
    (now : Nat) (s : ServerState) (ha : authOk cfg k = true) :
    create_key cfg k p now s =
      ({ s with api_keys_db := s.api_keys_db ++ [newKeyRecord p now s],
                audit_log_db := s.audit_log_db ++
                  [{ timestamp := now, action := "create_key",
                     key_id := some (formatNumId "key-" (s.api_keys_db.length + 1)),
                     details := "Created key \x27" ++ p.name ++ "\x27" }] },
        Except.ok (formatNumId "key-" (s.api_keys_db.length + 1))) := by
  unfold create_key newKeyRecord
  rw [if_pos ha]

theorem allocate_key_success (cfg : Config) (k : Option String)
    (p : AllocationCreate) (now : Nat) (s : ServerState) (kf : Key)
    (ha : authOk cfg k = true)
    (hf : findKey p.key_id s.api_keys_db = some kf) :
    allocate_key cfg k p now s =
      ({ s with
          api_keys_db := updateFirstKey (allocConsumerUpd p) p.key_id s.api_keys_db,
          allocations_db := s.allocations_db ++ [allocRecord p now s],
          audit_log_db := s.audit_log_db ++
            [{ timestamp := now, action := "allocate_key",
               key_id := some p.key_id,
               details := "Allocated to " ++ p.consumer_id }] },
        Except.ok (formatNumId "alloc-" (s.allocations_db.length + 1))) := by
  unfold allocate_key allocConsumerUpd allocRecord
  rw [if_pos ha, hf]

theorem rotate_key_success (cfg : Config) (k : Option String) (kid : String)
    (now : Nat) (s : ServerState) (kf : Key)
    (ha : authOk cfg k = true) (hf : findKey kid s.api_keys_db = some kf) :
    rotate_key cfg k kid now s =
      ({ s with
          api_keys_db := updateFirstKey
            (fun q => { q with last_rotated_at := some now }) kid s.api_keys_db,
          audit_log_db := s.audit_log_db ++
            [{ timestamp := now, action := "rotate_key", key_id := some kid,
               details := "Rotated key \x27" ++ kf.name ++ "\x27" }] },
        Except.ok kid) := by
  unfold rotate_key
  rw [if_pos ha, hf]

theorem list_keys_state (cfg : Config) (k : Option String) (s : ServerState) :
    (list_keys cfg k s).1 = s := by
  unfold list_keys
  split <;> rfl

theorem get_key_state (cfg : Config) (k : Option String) (kid : String)
    (s : ServerState) : (get_key cfg k kid s).1 = s := by
  unfold get_key
  split
  · split <;> rfl
  · rfl

theorem list_allocations_state (cfg : Config) (k : Option String)
    (s : ServerState) : (list_allocations cfg k s).1 = s := by
  unfold list_allocations
  split <;> rfl

theorem get_audit_log_state (cfg : Config) (k : Option String)
    (s : ServerState) : (get_audit_log cfg k s).1 = s := by
  unfold get_audit_log
  split <;> rfl

theorem system_request_success (cfg : Config) (k : Option String) (d : String)
    (now : Nat) (s : ServerState) (ha : authOk cfg k = true) :
    system_request cfg k d now s =
      ({ s with audit_log_db := s.audit_log_db ++
          [{ timestamp := now, action := "system_request", key_id := none,
             details := d }] }, Except.ok ()) := by
  unfold system_request
  rw [if_pos ha]

theorem step_unauthorized_state (cfg : Config) (s : ServerState) (op : Op)
    (hf : authOk cfg (opApiKey op) = false) : step cfg s op = s := by
  unfold step
  rw [stepE_unauthorized cfg s op hf]

theorem allocConsumerUpd_id (p : AllocationCreate) (q : Key) :
    (allocConsumerUpd p q).id = q.id := by
  unfold allocConsumerUpd
  split <;> rfl

theorem step_keyIds_extend (cfg : Config) (s : ServerState) (op : Op) :
    ∃ t, keyIds (step cfg s op) = keyIds s ++ t := by
  by_cases ha : authOk cfg (opApiKey op) = true
  · cases op with
    | createOp k p now =>
      refine ⟨[(newKeyRecord p now s).id], ?_⟩
      show keyIds (create_key cfg k p now s).1 = _
      rw [create_key_success cfg k p now s ha]
      unfold keyIds
      simp
    | listOp k =>
      refine ⟨[], ?_⟩
      show keyIds (list_keys cfg k s).1 = _
      rw [list_keys_state]
      simp
    | getOp k kid =>
      refine ⟨[], ?_⟩
      show keyIds (get_key cfg k kid s).1 = _
      rw [get_key_state]
      simp
    | allocateOp k p now =>
      have ha2 : authOk cfg k = true := ha
      refine ⟨[], ?_⟩
      show keyIds (allocate_key cfg k p now s).1 = _
      cases hf : findKey p.key_id s.api_keys_db with
      | some kf =>
        rw [allocate_key_success cfg k p now s kf ha2 hf]
        unfold keyIds
        simp only [List.append_nil]
        exact map_updateFirstKey Key.id (allocConsumerUpd p) p.key_id
          (allocConsumerUpd_id p) s.api_keys_db
      | none =>
        unfold allocate_key
        rw [if_pos ha2, hf]
        simp
    | listAllocsOp k =>
      refine ⟨[], ?_⟩
      show keyIds (list_allocations cfg k s).1 = _
      rw [list_allocations_state]
      simp
    | rotateOp k kid now =>
      have ha2 : authOk cfg k = true := ha
      refine ⟨[], ?_⟩
      show keyIds (rotate_key cfg k kid now s).1 = _
      cases hf : findKey kid s.api_keys_db with
      | some kf =>
        rw [rotate_key_success cfg k kid now s kf ha2 hf]
        unfold keyIds
        simp only [List.append_nil]
        exact map_updateFirstKey Key.id
          (fun q => { q with last_rotated_at := some now }) kid
          (fun _ => rfl) s.api_keys_db
      | none =>
        unfold rotate_key
        rw [if_pos ha2, hf]
        simp
    | auditOp k =>
      refine ⟨[], ?_⟩
      show keyIds (get_audit_log cfg k s).1 = _
      rw [get_audit_log_state]
      simp
    | systemReqOp k d now =>
      refine ⟨[], ?_⟩
      show keyIds (system_request cfg k d now s).1 = _
      rw [system_request_success cfg k d now s ha]
      unfold keyIds
      simp
  · have hfa : authOk cfg (opApiKey op) = false := by simpa using ha
    refine ⟨[], ?_⟩
    rw [step_unauthorized_state cfg s op hfa]
    simp

theorem step_audit_extend (cfg : Config) (s : ServerState) (op : Op) :
    (step cfg s op).audit_log_db = s.audit_log_db ∨
      ∃ en, (step cfg s op).audit_log_db = s.audit_log_db ++ [en] := by
  by_cases ha : authOk cfg (opApiKey op) = true
  · cases op with
    | createOp k p now =>
      right
      exact ⟨_, by
        show (create_key cfg k p now s).1.audit_log_db = _
        rw [create_key_success cfg k p now s ha]⟩
    | listOp k =>
      left
      exact congrArg ServerState.audit_log_db (list_keys_state cfg k s)
    | getOp k kid =>
      left
      exact congrArg ServerState.audit_log_db (get_key_state cfg k kid s)
    | allocateOp k p now =>
      have ha2 : authOk cfg k = true := ha
      cases hf : findKey p.key_id s.api_keys_db with
      | some kf =>
        right
        exact ⟨_, by
          show (allocate_key cfg k p now s).1.audit_log_db = _
          rw [allocate_key_success cfg k p now s kf ha2 hf]⟩
      | none =>
        left
        show (allocate_key cfg k p now s).1.audit_log_db = _
        unfold allocate_key
        rw [if_pos ha2, hf]
    | listAllocsOp k =>
      left
      exact congrArg ServerState.audit_log_db (list_allocations_state cfg k s)
    | rotateOp k kid now =>
      have ha2 : authOk cfg k = true := ha
      cases hf : findKey kid s.api_keys_db with
      | some kf =>
        right
        exact ⟨_, by
          show (rotate_key cfg k kid now s).1.audit_log_db = _
          rw [rotate_key_success cfg k kid now s kf ha2 hf]⟩
      | none =>
        left
        show (rotate_key cfg k kid now s).1.audit_log_db = _
        unfold rotate_key
        rw [if_pos ha2, hf]
    | auditOp k =>
      left
      exact congrArg ServerState.audit_log_db (get_audit_log_state cfg k s)
    | systemReqOp k d now =>
      right
      exact ⟨_, by
        show (system_request cfg k d now s).1.audit_log_db = _
        rw [system_request_success cfg k d now s ha]⟩
  · have hfa : authOk cfg (opApiKey op) = false := by simpa using ha
    left
    rw [step_unauthorized_state cfg s op hfa]

theorem idSeq_succ (n : Nat) :
    idSeq (n + 1) = idSeq n ++ [formatNumId "key-" (n + 1)] := by
  unfold idSeq
  rw [List.range_succ]
  simp

theorem idSeq_nodup (n : Nat) : (idSeq n).Nodup :=
  (List.nodup_range n).map (formatNumId_succ_injective "key-")

theorem idsInv_init : idsInv initState := by
  unfold idsInv
  decide

theorem idsInv_step (cfg : Config) (s : ServerState) (op : Op)
    (h : idsInv s) : idsInv (step cfg s op) := by
  by_cases ha : authOk cfg (opApiKey op) = true
  · cases op with
    | createOp k p now =>
      show idsInv (create_key cfg k p now s).1
      rw [create_key_success cfg k p now s ha]
      unfold idsInv keyIds at h ⊢
      simp only [List.map_append, List.length_append, List.map_cons,
        List.map_nil, List.length_cons, List.length_nil]
      rw [h, idSeq_succ]
      rfl
    | listOp k =>
      show idsInv (list_keys cfg k s).1
      rw [list_keys_state]
      exact h
    | getOp k kid =>
      show idsInv (get_key cfg k kid s).1
      rw [get_key_state]
      exact h
    | allocateOp k p now =>
      have ha2 : authOk cfg k = true := ha
      show idsInv (allocate_key cfg k p now s).1
      cases hf : findKey p.key_id s.api_keys_db with
      | some kf =>
        rw [allocate_key_success cfg k p now s kf ha2 hf]
        unfold idsInv keyIds at h ⊢
        show List.map Key.id (updateFirstKey (allocConsumerUpd p) p.key_id s.api_keys_db)
            = idSeq (updateFirstKey (allocConsumerUpd p) p.key_id s.api_keys_db).length
        rw [map_updateFirstKey Key.id (allocConsumerUpd p) p.key_id
          (allocConsumerUpd_id p) s.api_keys_db, length_updateFirstKey]
        exact h
      | none =>
        unfold allocate_key
        rw [if_pos ha2, hf]
        exact h
    | listAllocsOp k =>
      show idsInv (list_allocations cfg k s).1
      rw [list_allocations_state]
      exact h
    | rotateOp k kid now =>
      have ha2 : authOk cfg k = true := ha
      show idsInv (rotate_key cfg k kid now s).1
      cases hf : findKey kid s.api_keys_db with
      | some kf =>
        rw [rotate_key_success cfg k kid now s kf ha2 hf]
        unfold idsInv keyIds at h ⊢
        show List.map Key.id (updateFirstKey (fun q => { q with last_rotated_at := some now }) kid s.api_keys_db)
            = idSeq (updateFirstKey (fun q => { q with last_rotated_at := some now }) kid s.api_keys_db).length
        rw [map_updateFirstKey Key.id
          (fun q => { q with last_rotated_at := some now }) kid
          (fun _ => rfl) s.api_keys_db, length_updateFirstKey]
        exact h
      | none =>
        unfold rotate_key
        rw [if_pos ha2, hf]
        exact h
    | auditOp k =>
      show idsInv (get_audit_log cfg k s).1
      rw [get_audit_log_state]
      exact h
    | systemReqOp k d now =>
      show idsInv (system_request cfg k d now s).1
      rw [system_request_success cfg k d now s ha]
      exact h
  · rw [step_unauthorized_state cfg s op (by simpa using ha)]
    exact h

theorem idsInv_foldl (cfg : Config) (ops : List Op) (s : ServerState)
    (h : idsInv s) : idsInv (ops.foldl (step cfg) s) := by
  induction ops generalizing s with
  | nil => exact h
  | cons op ops ih => exact ih (step cfg s op) (idsInv_step cfg s op h)

theorem idsInv_run (cfg : Config) (ops : List Op) : idsInv (run cfg ops) :=
  idsInv_foldl cfg ops initState idsInv_init

theorem run_append (cfg : Config) (ops more : List Op) :
    run cfg (ops ++ more) = more.foldl (step cfg) (run cfg ops) := by
  unfold run
  rw [List.foldl_append]

theorem foldl_keyIds_extend (cfg : Config) (more : List Op) (s : ServerState) :
    ∃ t, keyIds (more.foldl (step cfg) s) = keyIds s ++ t := by
  induction more generalizing s with
  | nil => exact ⟨[], by simp⟩
  | cons op ops ih =>
    obtain ⟨t1, h1⟩ := step_keyIds_extend cfg s op
    obtain ⟨t2, h2⟩ := ih (step cfg s op)
    refine ⟨t1 ++ t2, ?_⟩
    rw [List.foldl_cons, h2, h1, List.append_assoc]

theorem updateFirstKey_frame (f : Key → Key) (kid : String) (l : List Key)
    (k : Key) (hfind : findKey kid l = some k) :
    ∃ j, l.get? j = some k ∧ k.id = kid ∧
      (updateFirstKey f kid l).get? j = some (f k) ∧
      ∀ i, i ≠ j → (updateFirstKey f kid l).get? i = l.get? i := by
  induction l with
  | nil => simp [findKey] at hfind
  | cons a as ih =>
    unfold findKey at hfind ih
    by_cases h : (a.id == kid) = true
    · have hak : a = k := by
        have := List.find?_cons_of_pos (p := fun q => q.id == kid) as h
        rw [this] at hfind
        simpa using hfind
      refine ⟨0, ?_, ?_, ?_, ?_⟩
      · rw [← hak]
        rfl
      · rw [← hak]
        exact eq_of_beq h
      · rw [updateFirstKey_cons_pos f kid a as h, hak]
        rfl
      · intro i hi
        cases i with
        | zero => exact absurd rfl hi
        | succ i2 =>
          rw [updateFirstKey_cons_pos f kid a as h]
          rfl
    · have hfind2 : List.find? (fun q => q.id == kid) as = some k := by
        have := List.find?_cons_of_neg (p := fun q => q.id == kid) as
          (by simpa using h)
        rw [this] at hfind
        exact hfind
      obtain ⟨j, hj1, hj2, hj3, hj4⟩ := ih hfind2
      refine ⟨j + 1, ?_, hj2, ?_, ?_⟩
      · simpa using hj1
      · rw [updateFirstKey_cons_neg f kid a as h]
        simpa using hj3
      · intro i hi
        rw [updateFirstKey_cons_neg f kid a as h]
        cases i with
        | zero => rfl
        | succ i2 =>
          have hij : i2 ≠ j := by omega
          simpa using hj4 i2 hij

/-! ### Claims -/

/-- C1 (amended): rotate_key changes no credential field other than
`last_rotated_at`; the data model keeps no `currentVersion`, so a rotation
increments nothing. Erasing the rotation timestamp, the key list is
untouched whether or not the rotate succeeds. -/
theorem C1_rotate_changes_only_timestamp (cfg : Config) (k : Option String)
    (kid : String) (now : Nat) (s : ServerState) :
    (rotate_key cfg k kid now s).1.api_keys_db.map stripRotatedAt
      = s.api_keys_db.map stripRotatedAt := by
  by_cases ha : authOk cfg k = true
  · cases hf : findKey kid s.api_keys_db with
    | some kf =>
      rw [rotate_key_success cfg k kid now s kf ha hf]
      exact map_updateFirstKey stripRotatedAt
        (fun q => { q with last_rotated_at := some now }) kid
        (fun _ => rfl) s.api_keys_db
    | none =>
      unfold rotate_key
      rw [if_pos ha, hf]
  · rw [rotate_key_unauthorized cfg k kid now s (by simpa using ha)]

/-- C1 counterexample: a successful rotate of key-001 at time 99 returns the
stored credentials unchanged except for `last_rotated_at`; no field of any
credential is incremented — the store has no version counter — refuting the
claimed `currentVersion` bump. -/
theorem C1_cex_rotate_increments_no_version :
    (rotate_key demoConfig demoKey "key-001" 99 initState).2
        = Except.ok "key-001" ∧
    (rotate_key demoConfig demoKey "key-001" 99 initState).1.api_keys_db
      = [ { id := "key-001", name := "Production Database",
            system_name := "PostgreSQL", system_type := "db", env := "prod",
            status := "active", last_used_at := some 20240207120000,
            last_rotated_at := some 99,
            allocated_to := ["Server-01", "Server-02"] },
          { id := "key-002", name := "Payment Gateway", system_name := "Stripe",
            system_type := "payments", env := "prod", status := "active",
            last_used_at := some 20240206183000,
            last_rotated_at := some 20240115000000,
            allocated_to := ["API-Gateway"] },
          { id := "key-003", name := "Cloud Storage", system_name := "AWS S3",
            system_type := "storage", env := "prod", status := "active",
            last_used_at := none, last_rotated_at := some 20240205000000,
            allocated_to := [] } ] := by
  constructor
  · rfl
  · rfl

/-- C2 (amended): allocate appends a fresh Allocation record on every call,
so re-allocating an existing (keyId, consumerId) pair duplicates records;
only the credential's `allocated_to` list is kept duplicate-free — a
consumer already listed leaves the key list entirely unchanged. -/
theorem C2_realloc_appends_record_keeps_keys (cfg : Config)
    (k : Option String) (p : AllocationCreate) (now : Nat) (s : ServerState)
    (kf : Key) (ha : authOk cfg k = true)
    (hf : findKey p.key_id s.api_keys_db = some kf)
    (hmem : p.consumer_id ∈ kf.allocated_to) :
    (allocate_key cfg k p now s).1.allocations_db
        = s.allocations_db ++ [allocRecord p now s] ∧
    (allocate_key cfg k p now s).1.api_keys_db = s.api_keys_db := by
  rw [allocate_key_success cfg k p now s kf ha hf]
  refine ⟨rfl, ?_⟩
  show updateFirstKey (allocConsumerUpd p) p.key_id s.api_keys_db
      = s.api_keys_db
  refine updateFirstKey_eq_of_fix (allocConsumerUpd p) p.key_id
    s.api_keys_db kf hf ?_
  unfold allocConsumerUpd
  rw [if_pos hmem]

/-- Witness for C2 at a concrete re-allocation: Server-01 is already listed
on key-001 in the initial state, and allocating it again appends a second
Allocation record. -/
theorem C2_realloc_appends_record_keeps_keys_witness :
    (allocate_key demoConfig demoKey
        { key_id := "key-001", consumer_type := "svc",
          consumer_id := "Server-01", scope := [] } 7 initState).1.allocations_db
      = initState.allocations_db ++
          [allocRecord
              { key_id := "key-001", consumer_type := "svc",
                consumer_id := "Server-01", scope := [] } 7 initState] :=
  (C2_realloc_appends_record_keeps_keys demoConfig demoKey
    { key_id := "key-001", consumer_type := "svc",
      consumer_id := "Server-01", scope := [] } 7 initState
    { id := "key-001", name := "Production Database",
      system_name := "PostgreSQL", system_type := "db", env := "prod",
      status := "active", last_used_at := some 20240207120000,
      last_rotated_at := some 20240201000000,
      allocated_to := ["Server-01", "Server-02"] }
    (by decide) (by decide) (by decide)).1

/-- C2 counterexample: allocating (key-001, C1) twice with different scopes
from the initial state leaves two Allocation records for the pair — the
records have no revocation marker, so both are active — refuting the claimed
at-most-one-active-allocation invariant. -/
theorem C2_cex_duplicate_allocations :
    (run demoConfig
        [Op.allocateOp demoKey
          { key_id := "key-001", consumer_type := "svc",
            consumer_id := "C1", scope := [("read", "true")] } 1,
         Op.allocateOp demoKey
          { key_id := "key-001", consumer_type := "svc",
            consumer_id := "C1", scope := [("write", "true")] } 2]).allocations_db
      = [ { id := "alloc-001", key_id := "key-001", consumer_type := "svc",
            consumer_id := "C1", scope := [("read", "true")],
            created_at := 1 },
          { id := "alloc-002", key_id := "key-001", consumer_type := "svc",
            consumer_id := "C1", scope := [("write", "true")],
            created_at := 2 } ] := by
  rfl

/-- C3 (amended): allocate_key never inspects credential status; whenever
the credential exists — whatever its status value, including "revoked" — the
call succeeds and appends an Allocation record. -/
theorem C3_allocate_ignores_status (cfg : Config) (k : Option String)
    (p : AllocationCreate) (now : Nat) (s : ServerState) (kf : Key)
    (ha : authOk cfg k = true)
    (hf : findKey p.key_id s.api_keys_db = some kf) :
    (allocate_key cfg k p now s).2
        = Except.ok (formatNumId "alloc-" (s.allocations_db.length + 1)) ∧
    (allocate_key cfg k p now s).1.allocations_db
        = s.allocations_db ++ [allocRecord p now s] := by
  rw [allocate_key_success cfg k p now s kf ha hf]
  exact ⟨rfl, rfl⟩

/-- Witness for C3 at the revoked-status credential of revokedState. -/
theorem C3_allocate_ignores_status_witness :
    (allocate_key demoConfig demoKey
        { key_id := "key-001", consumer_type := "svc", consumer_id := "C1",
          scope := [("read", "true")] } 7 revokedState).2
      = Except.ok (formatNumId "alloc-" (revokedState.allocations_db.length + 1)) :=
  (C3_allocate_ignores_status demoConfig demoKey
    { key_id := "key-001", consumer_type := "svc", consumer_id := "C1",
      scope := [("read", "true")] } 7 revokedState
    { id := "key-001", name := "Dead Key", system_name := "PostgreSQL",
      system_type := "db", env := "prod", status := "revoked",
      last_used_at := none, last_rotated_at := none, allocated_to := [] }
    (by decide) (by decide)).1

/-- C3 counterexample: allocating against the single credential of
revokedState, whose status is "revoked", succeeds with alloc-001 and appends
an Allocation record, instead of failing with InvalidState and creating
nothing. -/
theorem C3_cex_allocate_revoked_succeeds :
    revokedState.api_keys_db.map Key.status = ["revoked"] ∧
    (allocate_key demoConfig demoKey
        { key_id := "key-001", consumer_type := "svc", consumer_id := "C1",
          scope := [("read", "true")] } 7 revokedState).2
      = Except.ok "alloc-001" ∧
    (allocate_key demoConfig demoKey
        { key_id := "key-001", consumer_type := "svc", consumer_id := "C1",
          scope := [("read", "true")] } 7 revokedState).1.allocations_db.length
      = 1 := by
  refine ⟨rfl, rfl, rfl⟩

/-- C4 (amended): audit entries carry no explicit sequence number; the log
is an append-only list whose positions form the implicit, strictly
increasing and gapless sequence: every request appends at most one entry at
the end, and a request that fails appends none. -/
theorem C4_audit_append_only (cfg : Config) (s : ServerState) (op : Op) :
    (∀ e, (stepE cfg s op).2 = Except.error e →
      (step cfg s op).audit_log_db = s.audit_log_db) ∧
    ((step cfg s op).audit_log_db = s.audit_log_db ∨
      ∃ en, (step cfg s op).audit_log_db = s.audit_log_db ++ [en]) := by
  constructor
  · intro e he
    rw [stepE_error_state cfg s op e he]
  · exact step_audit_extend cfg s op

/-- Witness for C4 at a concrete request. -/
theorem C4_audit_append_only_witness :
    (step demoConfig initState (Op.listOp demoKey)).audit_log_db
        = initState.audit_log_db ∨
      ∃ en, (step demoConfig initState (Op.listOp demoKey)).audit_log_db
        = initState.audit_log_db ++ [en] :=
  (C4_audit_append_only demoConfig initState (Op.listOp demoKey)).2

/-- C4 counterexample: the audit entry appended by a successful create
consists of exactly timestamp, action, key_id and details — no sequence
field assigned by the log exists — refuting the claimed explicit sequence
numbers on every entry. -/
theorem C4_cex_audit_entry_without_sequence :
    (run demoConfig
        [Op.createOp demoKey
          { system_name := "s", system_type := "t", env := "e", name := "N",
            key_ref := "r" } 7]).audit_log_db
      = [ { timestamp := 7, action := "create_key", key_id := some "key-004",
            details := "Created key \x27N\x27" } ] := by
  rfl

/-- C5: whenever a request fails (in particular a rotate whose key id
matches no credential fails with NotFound), the whole server state —
credentials, allocations and audit log — is exactly as before the request:
no-op-on-error. -/
theorem C5_no_op_on_error (cfg : Config) (s : ServerState) (op : Op)
    (e : ApiError) (h : (stepE cfg s op).2 = Except.error e) :
    step cfg s op = s :=
  stepE_error_state cfg s op e h

/-- Witness for C5: rotating the unknown id key-999 fails with NotFound and
leaves the initial state untouched. -/
theorem C5_no_op_on_error_witness :
    (stepE demoConfig initState (Op.rotateOp demoKey "key-999" 5)).2
        = Except.error ApiError.notFound ∧
      step demoConfig initState (Op.rotateOp demoKey "key-999" 5) = initState :=
  ⟨by rfl, C5_no_op_on_error demoConfig initState
    (Op.rotateOp demoKey "key-999" 5) ApiError.notFound (by rfl)⟩

/-- C6: every privileged request (create, list, get, allocate, list
allocations, rotate, audit query, system request) whose api key the admin
gate rejects fails with Unauthorized, and the state — credentials,
allocations and audit log — is unchanged: nothing is produced before the
authorization check succeeds. -/
theorem C6_unauthorized_no_mutation (cfg : Config) (s : ServerState)
    (op : Op) (h : authOk cfg (opApiKey op) = false) :
    stepE cfg s op = (s, Except.error ApiError.unauthorized) :=
  stepE_unauthorized cfg s op h

/-- Witness for C6: a create request with a wrong admin key fails with
Unauthorized and mutates nothing. -/
theorem C6_unauthorized_no_mutation_witness :
    authOk demoConfig (opApiKey (Op.createOp (some "wrong")
        { system_name := "s", system_type := "t", env := "e", name := "N",
          key_ref := "r" } 7)) = false ∧
    stepE demoConfig initState (Op.createOp (some "wrong")
        { system_name := "s", system_type := "t", env := "e", name := "N",
          key_ref := "r" } 7)
      = (initState, Except.error ApiError.unauthorized) :=
  ⟨by decide, C6_unauthorized_no_mutation demoConfig initState
    (Op.createOp (some "wrong")
      { system_name := "s", system_type := "t", env := "e", name := "N",
        key_ref := "r" } 7) (by decide)⟩

/-- C7: after any request sequence the stored credential ids are pairwise
distinct, and a longer run only extends the id list of a shorter one — ids
are never removed nor reused, the store supporting no deletion at all. -/
theorem C7_key_ids_unique_never_reused (cfg : Config) (ops more : List Op) :
    (keyIds (run cfg ops)).Nodup ∧
      ∃ t, keyIds (run cfg (ops ++ more)) = keyIds (run cfg ops) ++ t := by
  constructor
  · have h := idsInv_run cfg ops
    unfold idsInv at h
    rw [h]
    exact idSeq_nodup (run cfg ops).api_keys_db.length
  · rw [run_append]
    exact foldl_keyIds_extend cfg more (run cfg ops)

/-- C8 (amended): the list operation supports no filters: it returns every
stored credential, in storage order; a create appends the new credential at
the end, so the order is stable creation (insertion) order. -/
theorem C8_list_returns_all_in_order (cfg : Config) (k : Option String)
    (s : ServerState) (p : KeyCreate) (now : Nat)
    (ha : authOk cfg k = true) :
    (list_keys cfg k s).2 = Except.ok s.api_keys_db ∧
    (list_keys cfg k (create_key cfg k p now s).1).2
      = Except.ok (s.api_keys_db ++ [newKeyRecord p now s]) := by
  constructor
  · unfold list_keys
    rw [if_pos ha]
  · rw [create_key_success cfg k p now s ha]
    unfold list_keys
    rw [if_pos ha]

/-- Witness for C8 at the initial state. -/
theorem C8_list_returns_all_in_order_witness :
    (list_keys demoConfig demoKey initState).2
      = Except.ok initState.api_keys_db :=
  (C8_list_returns_all_in_order demoConfig demoKey initState
    { system_name := "s", system_type := "t", env := "e", name := "N",
      key_ref := "r" } 7 (by decide)).1

/-- C8 counterexample: per the spec's words, filtering the initial state by
systemType "db" keeps only key-001, but the code's list operation takes no
filters and returns all three credentials — the returned list is not the
filtered one. -/
theorem C8_cex_list_ignores_filters :
    (list_keys demoConfig demoKey initState).2
        = Except.ok initState.api_keys_db ∧
    (list_keys_filtered none none (some "db") initState).map Key.id
        = ["key-001"] ∧
    initState.api_keys_db.map Key.id = ["key-001", "key-002", "key-003"] ∧
    initState.api_keys_db ≠ list_keys_filtered none none (some "db") initState := by
  refine ⟨rfl, rfl, rfl, ?_⟩
  decide

/-- C9: a successful rotate changes only the found credential's
`last_rotated_at`: the result is ok, allocations are untouched, exactly one
audit entry is appended, the key count is unchanged, and there is an index
holding the found credential where the stored record becomes exactly that
credential with `last_rotated_at := now` (so its id, name, system_name,
system_type, env, status, last_used_at, allocated_to are kept verbatim),
while every record at every other index — including its own
`last_rotated_at` — is completely unchanged. -/
theorem C9_rotate_frame_effect (cfg : Config) (k : Option String)
    (kid : String) (now : Nat) (s : ServerState) (kf : Key)
    (ha : authOk cfg k = true) (hf : findKey kid s.api_keys_db = some kf) :
    (rotate_key cfg k kid now s).2 = Except.ok kid ∧
    (rotate_key cfg k kid now s).1.allocations_db = s.allocations_db ∧
    (rotate_key cfg k kid now s).1.audit_log_db = s.audit_log_db ++
      [{ timestamp := now, action := "rotate_key", key_id := some kid,
         details := "Rotated key \x27" ++ kf.name ++ "\x27" }] ∧
    (rotate_key cfg k kid now s).1.api_keys_db.length
        = s.api_keys_db.length ∧
    ∃ j, s.api_keys_db.get? j = some kf ∧ kf.id = kid ∧
      (rotate_key cfg k kid now s).1.api_keys_db.get? j
        = some { kf with last_rotated_at := some now } ∧
      ∀ i, i ≠ j →
        (rotate_key cfg k kid now s).1.api_keys_db.get? i
          = s.api_keys_db.get? i := by
  rw [rotate_key_success cfg k kid now s kf ha hf]
  refine ⟨rfl, rfl, rfl, length_updateFirstKey _ _ _, ?_⟩
  exact updateFirstKey_frame (fun q => { q with last_rotated_at := some now })
    kid s.api_keys_db kf hf

/-- Witness for C9: rotating key-001 at time 99 from the initial state
succeeds, leaves allocations untouched, appends the one audit entry, keeps
the key count, and updates only the record holding key-001, every other
index staying exactly as before. -/
theorem C9_rotate_frame_effect_witness :
    (rotate_key demoConfig demoKey "key-001" 99 initState).2
        = Except.ok "key-001" ∧
    (rotate_key demoConfig demoKey "key-001" 99 initState).1.allocations_db
        = initState.allocations_db ∧
    (rotate_key demoConfig demoKey "key-001" 99 initState).1.audit_log_db
        = initState.audit_log_db ++
          [{ timestamp := 99, action := "rotate_key",
             key_id := some "key-001",
             details := "Rotated key \x27Production Database\x27" }] ∧
    (rotate_key demoConfig demoKey "key-001" 99 initState).1.api_keys_db.length
        = initState.api_keys_db.length ∧
    ∃ j, initState.api_keys_db.get? j = some
        { id := "key-001", name := "Production Database",
          system_name := "PostgreSQL", system_type := "db", env := "prod",
          status := "active", last_used_at := some 20240207120000,
          last_rotated_at := some 20240201000000,
          allocated_to := ["Server-01", "Server-02"] } ∧
      ({ id := "key-001", name := "Production Database",
         system_name := "PostgreSQL", system_type := "db", env := "prod",
         status := "active", last_used_at := some 20240207120000,
         last_rotated_at := some 20240201000000,
         allocated_to := ["Server-01", "Server-02"] } : Key).id = "key-001" ∧
      (rotate_key demoConfig demoKey "key-001" 99 initState).1.api_keys_db.get? j
        = some
          { id := "key-001", name := "Production Database",
            system_name := "PostgreSQL", system_type := "db", env := "prod",
            status := "active", last_used_at := some 20240207120000,
            last_rotated_at := some 99,
            allocated_to := ["Server-01", "Server-02"] } ∧
      ∀ i, i ≠ j →
        (rotate_key demoConfig demoKey "key-001" 99 initState).1.api_keys_db.get? i
          = initState.api_keys_db.get? i :=
  C9_rotate_frame_effect demoConfig demoKey "key-001" 99 initState
    { id := "key-001", name := "Production Database",
      system_name := "PostgreSQL", system_type := "db", env := "prod",
      status := "active", last_used_at := some 20240207120000,
      last_rotated_at := some 20240201000000,
      allocated_to := ["Server-01", "Server-02"] }
    (by decide) (by decide)

/-- C10: the audit-log query returns the suffix of the at most 100 most
recently appended entries, in append order; everything appended before that
suffix is absent from the result. -/
theorem C10_audit_query_last_100 (cfg : Config) (k : Option String)
    (s : ServerState) (ha : authOk cfg k = true) :
    ∃ r dropped,
      (get_audit_log cfg k s).2 = Except.ok r ∧
      s.audit_log_db = dropped ++ r ∧
      r.length ≤ 100 ∧
      dropped.length = s.audit_log_db.length - 100 ∧
      (100 ≤ s.audit_log_db.length → r.length = 100) := by
  refine ⟨s.audit_log_db.drop (s.audit_log_db.length - 100),
    s.audit_log_db.take (s.audit_log_db.length - 100), ?_, ?_, ?_, ?_, ?_⟩
  · unfold get_audit_log
    rw [if_pos ha]
  · rw [List.take_append_drop]
  · rw [List.length_drop]
    omega
  · rw [List.length_take]
    omega
  · intro h100
    rw [List.length_drop]
    omega

/-- Witness for C10 at the initial state. -/
theorem C10_audit_query_last_100_witness :
    ∃ r dropped,
      (get_audit_log demoConfig demoKey initState).2 = Except.ok r ∧
      initState.audit_log_db = dropped ++ r ∧
      r.length ≤ 100 ∧
      dropped.length = initState.audit_log_db.length - 100 ∧
      (100 ≤ initState.audit_log_db.length → r.length = 100) :=
  C10_audit_query_last_100 demoConfig demoKey initState (by decide)
